import Mathlib

/-
Verification development for the MS SQL Server to Snowflake procedure
converter (src/claude.py).  Strings are modelled as List Char; the
Python functions are translated into executable Lean definitions, with
the two remote services (the Bedrock model and the Snowflake session)
supplied as explicit stubs.
-/

set_option maxRecDepth 100000

namespace EDW

/-- Apostrophe character, written by code point to keep source clean. -/
def sq : Char := Char.ofNat 39

/-- Whitespace characters stripped by the Python str.strip method. -/
def isPySpace (c : Char) : Bool :=
  c = ' ' || c = Char.ofNat 9 || c = Char.ofNat 10 || c = Char.ofNat 13 ||
  c = Char.ofNat 11 || c = Char.ofNat 12

/-- Python str.strip: remove leading and trailing whitespace. -/
def pyStrip (s : List Char) : List Char :=
  ((s.dropWhile isPySpace).reverse.dropWhile isPySpace).reverse

/-- Search for the first index at or after base where sub occurs in s;
the argument s is the remainder of the searched list from index base on. -/
def pyFindAux (sub : List Char) : List Char → Nat → Option Nat
  | [], i => if sub.isPrefixOf ([] : List Char) then some i else none
  | c :: t, i => if sub.isPrefixOf (c :: t) then some i else pyFindAux sub t (i + 1)

/-- Python str.find with a nonnegative start argument: the least index i
with start ≤ i at which sub occurs in s, as an Option. -/
def pyFind (s sub : List Char) (start : Nat) : Option Nat :=
  if start ≤ s.length then pyFindAux sub (s.drop start) start else none

/-- Python str.find returning -1 for a failed search, with an Int start
as produced by the expression start_index + 6 in the source. -/
def pyFindI (s sub : List Char) (start : Int) : Int :=
  match pyFind s sub start.toNat with
  | some i => (i : Int)
  | none => -1

/-- Opening marker searched by the source code. -/
def fenceSql : List Char := "```sql".toList

/-- Closing marker searched by the source code. -/
def fence : List Char := "```".toList

/-- Response Extractor: the extraction step shared verbatim by
convert_procedure and procedure_error_rtry in src/claude.py:
start_index = text.find("```sql"); end_index = text.find("```", start_index + 6);
if both differ from -1, return text[start_index + 6 : end_index].strip(),
else return None. -/
def extractSqlBlock (text : List Char) : Option (List Char) :=
  let startIndex : Int := pyFindI text fenceSql 0
  let endIndex : Int := pyFindI text fence (startIndex + 6)
  if startIndex ≠ -1 ∧ endIndex ≠ -1 then
    some (pyStrip ((text.take endIndex.toNat).drop (startIndex + 6).toNat))
  else
    none

/-- The pattern sub occurs in s at position k. -/
def occursAt (s sub : List Char) (k : Nat) : Prop :=
  sub.isPrefixOf (s.drop k) = true

instance (s sub : List Char) (k : Nat) : Decidable (occursAt s sub k) := by
  unfold occursAt; infer_instance

/-- Position i is the first occurrence of sub in s at or after start. -/
def firstOccurFrom (s sub : List Char) (start i : Nat) : Prop :=
  start ≤ i ∧ occursAt s sub i ∧ ∀ k, k < i → start ≤ k → ¬ occursAt s sub k

instance (s sub : List Char) (start i : Nat) : Decidable (firstOccurFrom s sub start i) := by
  unfold firstOccurFrom; infer_instance

theorem pyFindAux_some (sub : List Char) :
    ∀ (s : List Char) (base j : Nat), pyFindAux sub s base = some j →
      base ≤ j ∧ sub.isPrefixOf (s.drop (j - base)) = true ∧
        ∀ k, base ≤ k → k < j → ¬ sub.isPrefixOf (s.drop (k - base)) = true := by
  intro s
  induction s with
  | nil =>
    intro base j h
    unfold pyFindAux at h
    by_cases hp : sub.isPrefixOf ([] : List Char) = true
    · simp [hp] at h
      subst h
      refine ⟨Nat.le_refl _, by simpa using hp, ?_⟩
      intro k hk hk2; omega
    · simp [hp] at h
  | cons c t ih =>
    intro base j h
    unfold pyFindAux at h
    by_cases hp : sub.isPrefixOf (c :: t) = true
    · simp [hp] at h
      subst h
      refine ⟨Nat.le_refl _, by simpa using hp, ?_⟩
      intro k hk hk2; omega
    · simp [hp] at h
      obtain ⟨h1, h2, h3⟩ := ih (base + 1) j h
      refine ⟨by omega, ?_, ?_⟩
      · have : j - base = (j - (base + 1)) + 1 := by omega
        rw [this, List.drop_succ_cons]
        exact h2
      · intro k hk hkj
        by_cases hkb : k = base
        · subst hkb
          simpa using hp
        · have hk1 : base + 1 ≤ k := by omega
          have : k - base = (k - (base + 1)) + 1 := by omega
          rw [this, List.drop_succ_cons]
          exact h3 k hk1 hkj

theorem pyFindAux_none (sub : List Char) :
    ∀ (s : List Char) (base : Nat), pyFindAux sub s base = none →
      ∀ k, base ≤ k → ¬ sub.isPrefixOf (s.drop (k - base)) = true := by
  intro s
  induction s with
  | nil =>
    intro base h k hk
    unfold pyFindAux at h
    by_cases hp : sub.isPrefixOf ([] : List Char) = true
    · simp [hp] at h
    · simpa using hp
  | cons c t ih =>
    intro base h k hk
    unfold pyFindAux at h
    by_cases hp : sub.isPrefixOf (c :: t) = true
    · simp [hp] at h
    · simp [hp] at h
      by_cases hkb : k = base
      · subst hkb
        simpa using hp
      · have hk1 : base + 1 ≤ k := by omega
        have : k - base = (k - (base + 1)) + 1 := by omega
        rw [this, List.drop_succ_cons]
        exact ih (base + 1) h k hk1

theorem pyFind_some (s sub : List Char) (start i : Nat)
    (h : pyFind s sub start = some i) :
    start ≤ i ∧ occursAt s sub i ∧ ∀ k, start ≤ k → k < i → ¬ occursAt s sub k := by
  unfold pyFind at h
  by_cases hs : start ≤ s.length
  · simp [hs] at h
    obtain ⟨h1, h2, h3⟩ := pyFindAux_some sub (s.drop start) start i h
    have hdrop : ∀ m, start ≤ m → (s.drop start).drop (m - start) = s.drop m := by
      intro m hm
      rw [List.drop_drop]
      congr 1
      omega
    refine ⟨h1, ?_, ?_⟩
    · unfold occursAt
      rw [← hdrop i h1]
      exact h2
    · intro k hk hki
      unfold occursAt
      rw [← hdrop k hk]
      exact h3 k hk hki
  · simp [hs] at h

theorem pyFind_none (s sub : List Char) (start : Nat) (hsub : sub ≠ [])
    (h : pyFind s sub start = none) :
    ∀ k, start ≤ k → ¬ occursAt s sub k := by
  intro k hk
  unfold pyFind at h
  by_cases hs : start ≤ s.length
  · simp [hs] at h
    have := pyFindAux_none sub (s.drop start) start h k hk
    unfold occursAt
    rw [List.drop_drop] at this
    have heq : start + (k - start) = k := by omega
    rw [heq] at this
    exact this
  · have hlen : s.length < k := by omega
    unfold occursAt
    rw [List.drop_eq_nil_of_le (by omega)]
    cases sub with
    | nil => exact absurd rfl hsub
    | cons a l => simp [List.isPrefixOf]

theorem pyFind_eq_some_of_first (s sub : List Char) (start i : Nat) (hsub : sub ≠ [])
    (h : firstOccurFrom s sub start i) : pyFind s sub start = some i := by
  obtain ⟨h1, h2, h3⟩ := h
  cases hf : pyFind s sub start with
  | none =>
    exact absurd h2 (pyFind_none s sub start hsub hf i h1)
  | some i2 =>
    obtain ⟨g1, g2, g3⟩ := pyFind_some s sub start i2 hf
    by_cases hlt : i2 < i
    · exact absurd g2 (h3 i2 hlt g1)
    · by_cases hgt : i < i2
      · exact absurd h2 (g3 i h1 hgt)
      · have : i = i2 := by omega
        rw [this]

theorem pyFind_eq_none_of_no_occur (s sub : List Char) (start : Nat)
    (h : ∀ k, start ≤ k → ¬ occursAt s sub k) : pyFind s sub start = none := by
  cases hf : pyFind s sub start with
  | none => rfl
  | some i =>
    obtain ⟨g1, g2, _⟩ := pyFind_some s sub start i hf
    exact absurd g2 (h i g1)

/-- Outcome of one client.converse call: either the first text field of the
response, or any raised transport/service exception with its message.  The
except clause in the source catches (ClientError, Exception), i.e. every
exception. -/
inductive CallOutcome where
  | ok (text : List Char)
  | raised (reason : List Char)
deriving DecidableEq

/-- The model id hard-coded in src/claude.py. -/
def model_id : List Char := "anthropic.claude-3-5-sonnet-20240620-v1:0".toList

/-- The diagnostic printed on call failure:
ERROR: Cannot invoke (model id). Reason: (e) — with the exact apostrophes of the
f-string print(f"ERROR: Can..t invoke ..model_id... Reason: ...e...") rebuilt here. -/
def errorLogLine (reason : List Char) : List Char :=
  "ERROR: Can".toList ++ [sq] ++ "t invoke ".toList ++ [sq] ++ model_id ++ [sq] ++
    ". Reason: ".toList ++ reason

/-- The user_message f-string of convert_procedure, with sql_code interpolated. -/
def buildConvertPrompt (sql_code : List Char) : List Char :=
  ("Human: You are a highly skilled SQL and Snowflake expert. Your task is to convert an MS SQL Server stored procedure into a Snowflake-compatible SQL stored procedure using SQL language for procedure conversion. Don").toList ++ [sq] ++
  ("t use JavaScript. Write high-quality Snowflake SQL code for the conversion.\n\n    Ensure the conversion handles all necessary syntax differences between MS SQL Server and Snowflake. Review your output thoroughly to confirm there are no syntax errors or functional discrepancies.\n    \n    Here is the MS SQL Server stored procedure code:\n    <task>\n    ").toList ++
  sql_code ++
  ("\n    </task>\n    \n    Assistant:\n    ").toList

/-- The user_message f-string of procedure_error_rtry, with sql_code and error
interpolated. -/
def buildRetryPrompt (sql_code error : List Char) : List Char :=
  ("Human: You are a highly skilled SQL and Snowflake expert. Your task is to resolve an issue with a Snowflake stored procedure.\n    You will be provided with a Snowflake stored procedure and its respective error. Try resolving the code issue based on the error message.\n\n    Review your output thoroughly to confirm there are no syntax errors or functional discrepancies.\n    \n    Here is the Snowflake stored procedure code:\n    <task>\n    ").toList ++
  sql_code ++
  ("\n    </task>\n    <error>\n    ").toList ++
  error ++
  ("\n    </error>\n    \n    Assistant:\n    ").toList

/-- Result of executing one SQL statement on the Snowflake cursor: success,
a snowflake.connector.errors.ProgrammingError, or any other exception. -/
inductive ExecResult where
  | ok
  | progError (msg : List Char)
  | otherError (msg : List Char)
deriving DecidableEq

/-- Result of connection.cursor(): a cursor, or a raised exception, which is a
ProgrammingError when isProg is true and any other exception otherwise. -/
inductive AcquireResult where
  | ok
  | raises (isProg : Bool) (msg : List Char)
deriving DecidableEq

/-- Stub of an open Snowflake connection: what connection.cursor() does, and
what cursor.execute(sql) does for each statement text. -/
structure Connection where
  cursorResult : AcquireResult
  exec : List Char → ExecResult

/-- convert_procedure: builds the conversion prompt, invokes the model
(argument model maps a prompt to the call outcome), extracts the fenced sql
block, and on any raised exception prints the diagnostic line and returns
None.  Result: the returned Option plus the list of printed diagnostic lines. -/
def convert_procedure (model : List Char → CallOutcome) (sql_code : List Char) :
    Option (List Char) × List (List Char) :=
  match model (buildConvertPrompt sql_code) with
  | CallOutcome.ok text => (extractSqlBlock text, [])
  | CallOutcome.raised reason => (none, [errorLogLine reason])

/-- procedure_error_rtry: same call shape as convert_procedure but with the
repair prompt built from the failing code and the error text.  The connection
parameter is accepted and never read, as in the source. -/
def procedure_error_rtry (connection : Connection) (sql_code error : List Char)
    (model : List Char → CallOutcome) : Option (List Char) × List (List Char) :=
  match model (buildRetryPrompt sql_code error) with
  | CallOutcome.ok text => (extractSqlBlock text, [])
  | CallOutcome.raised reason => (none, [errorLogLine reason])

/-- Python exceptions escaping a modelled function: a ProgrammingError, any
other exception, or the UnboundLocalError raised when a finally block reads a
local variable that was never assigned. -/
inductive PyExn where
  | progError (msg : List Char)
  | otherError (msg : List Char)
  | unboundLocal (varName : List Char)
deriving DecidableEq

/-- Observable events on the external services, in program order. -/
inductive Event where
  | connected
  | connectFailed
  | closeConnection
  | acquireCursor
  | execute (sql : List Char)
  | closeCursor
  | repairCall (sql error : List Char)
deriving DecidableEq

/-- Local variable name read by the finally block of
create_stored_procedure_in_snowflake. -/
def cursorVar : List Char := "cursor".toList

/-- Local variable name read by the finally block of main. -/
def connVar : List Char := "snowflake_connection".toList

/-- create_stored_procedure_in_snowflake, as a function of the model stub, the
connection stub and the SQL text, returning the Python result (Except: a
normal Bool return or an escaping exception) together with the event trace.
The source acquires one cursor inside try, executes sql_code, on a
ProgrammingError calls procedure_error_rtry and, when the repaired code is
truthy, re-executes it on the same cursor; the single finally closes the
cursor.  When connection.cursor() itself raises, the finally block reads the
unassigned local cursor and raises UnboundLocalError (after the repair call
when the original exception was a ProgrammingError). -/
def create_stored_procedure_in_snowflake (model : List Char → CallOutcome)
    (connection : Connection) (sql_code : List Char) :
    Except PyExn Bool × List Event :=
  match connection.cursorResult with
  | AcquireResult.raises true msg =>
      (Except.error (PyExn.unboundLocal cursorVar), [Event.repairCall sql_code msg])
  | AcquireResult.raises false _msg =>
      (Except.error (PyExn.unboundLocal cursorVar), [])
  | AcquireResult.ok =>
    match connection.exec sql_code with
    | ExecResult.ok =>
        (Except.ok true, [Event.acquireCursor, Event.execute sql_code, Event.closeCursor])
    | ExecResult.otherError m =>
        (Except.error (PyExn.otherError m),
         [Event.acquireCursor, Event.execute sql_code, Event.closeCursor])
    | ExecResult.progError m =>
      match (procedure_error_rtry connection sql_code m model).fst with
      | some c =>
        if c = [] then
          (Except.ok false,
           [Event.acquireCursor, Event.execute sql_code, Event.repairCall sql_code m,
            Event.closeCursor])
        else
          match connection.exec c with
          | ExecResult.ok =>
              (Except.ok true,
               [Event.acquireCursor, Event.execute sql_code, Event.repairCall sql_code m,
                Event.execute c, Event.closeCursor])
          | ExecResult.progError _ =>
              (Except.ok false,
               [Event.acquireCursor, Event.execute sql_code, Event.repairCall sql_code m,
                Event.execute c, Event.closeCursor])
          | ExecResult.otherError m2 =>
              (Except.error (PyExn.otherError m2),
               [Event.acquireCursor, Event.execute sql_code, Event.repairCall sql_code m,
                Event.execute c, Event.closeCursor])
      | none =>
          (Except.ok false,
           [Event.acquireCursor, Event.execute sql_code, Event.repairCall sql_code m,
            Event.closeCursor])

/-- process_sql_code: converts SQL code and returns the result (the printed
diagnostics go to stdout and are dropped here, as main never reads them). -/
def process_sql_code (model : List Char → CallOutcome) (sql_code : List Char) :
    Option (List Char) :=
  (convert_procedure model sql_code).fst

/-- os.path.basename for POSIX paths: the part after the last slash. -/
def basename (p : List Char) : List Char :=
  (p.reverse.takeWhile (fun c => c ≠ '/')).reverse

/-- create_zip_file: writes one archive entry per (file_name, converted_code)
pair, in order; modelled as the list of entries written. -/
def create_zip_file (converted_files : List (List Char × List Char)) :
    List (List Char × List Char) :=
  converted_files

/-- An uploaded file: its name and its decoded UTF-8 content. -/
structure UploadedFile where
  name : List Char
  content : List Char
deriving DecidableEq

/-- The three accumulator lists of main plus the database event trace. -/
structure BatchState where
  converted_files : List (List Char × List Char)
  created_successfully : List (List Char)
  not_created_files : List (List Char)
  events : List Event
deriving DecidableEq

/-- Batch state with all four accumulators empty. -/
def emptyBatch : BatchState := ⟨[], [], [], []⟩

/-- Fieldwise concatenation of two batch states, in program order. -/
def appendBatch (a b : BatchState) : BatchState :=
  ⟨a.converted_files ++ b.converted_files,
   a.created_successfully ++ b.created_successfully,
   a.not_created_files ++ b.not_created_files,
   a.events ++ b.events⟩

/-- One iteration of the for loop of main for one uploaded file: translate,
and when the result is truthy archive it and attempt registration; otherwise
record the basename as not created.  The second component is the exception
escaping create_stored_procedure_in_snowflake, if any, which aborts the loop. -/
def stepFile (model : List Char → CallOutcome) (conn : Connection)
    (f : UploadedFile) : BatchState × Option PyExn :=
  match process_sql_code model f.content with
  | some c =>
    if c = [] then
      (⟨[], [], [basename f.name], []⟩, none)
    else
      match create_stored_procedure_in_snowflake model conn c with
      | (Except.ok true, tr) =>
          (⟨[(basename f.name, c)], [basename f.name], [], tr⟩, none)
      | (Except.ok false, tr) =>
          (⟨[(basename f.name, c)], [], [basename f.name], tr⟩, none)
      | (Except.error e, tr) =>
          (⟨[(basename f.name, c)], [], [], tr⟩, some e)
  | none => (⟨[], [], [basename f.name], []⟩, none)

/-- The for loop of main over the uploaded files: per-file contributions are
concatenated in input order; an exception escaping a registration attempt
aborts the loop and is reported as the second component. -/
def mainLoop (model : List Char → CallOutcome) (conn : Connection) :
    List UploadedFile → BatchState × Option PyExn
  | [] => (emptyBatch, none)
  | f :: rest =>
    match stepFile model conn f with
    | (st, some e) => (st, some e)
    | (st, none) =>
      match mainLoop model conn rest with
      | (st2, e2) => (appendBatch st st2, e2)

/-- Outcome of snowflake.connector.connect in main: an open connection stub,
or a raised exception. -/
inductive ConnectResult where
  | ok (conn : Connection)
  | raises (msg : List Char)

/-- The two external services driven by one run of main. -/
structure World where
  model : List Char → CallOutcome
  connect : ConnectResult

/-- What one press of the Convert button produces: the accumulated lists, the
event trace, the exception escaping main (if any), and the loop-aborting
exception caught and displayed by the except branch (if any). -/
structure MainResult where
  state : BatchState
  events : List Event
  exn : Option PyExn
  loopExn : Option PyExn
deriving DecidableEq

/-- The Convert branch of main: with no uploaded files only a warning is
shown; otherwise the connection is created inside try, the loop runs, any
exception is caught and displayed by the except branch, and the finally block
closes snowflake_connection.  When connect itself raises, the finally block
reads the unassigned local snowflake_connection and raises UnboundLocalError. -/
def main (w : World) (files : List UploadedFile) : MainResult :=
  if files.isEmpty then
    { state := emptyBatch, events := [], exn := none, loopExn := none }
  else
    match w.connect with
    | ConnectResult.raises _msg =>
        { state := emptyBatch, events := [Event.connectFailed],
          exn := some (PyExn.unboundLocal connVar), loopExn := none }
    | ConnectResult.ok conn =>
      match mainLoop w.model conn files with
      | (st, e) =>
        { state := st,
          events := Event.connected :: (st.events ++ [Event.closeConnection]),
          exn := none, loopExn := e }

/-- Predicate selecting submission-attempt events. -/
def isExecuteEv : Event → Bool
  | Event.execute _ => true
  | _ => false

/-- Predicate selecting repair-request events. -/
def isRepairEv : Event → Bool
  | Event.repairCall _ _ => true
  | _ => false

/-- Predicate selecting cursor-release events. -/
def isCloseCursorEv : Event → Bool
  | Event.closeCursor => true
  | _ => false

/-- Predicate selecting connection-release events. -/
def isCloseConnEv : Event → Bool
  | Event.closeConnection => true
  | _ => false

/-- Scan of a trace checking the per-attempt release discipline claimed by the
spec: no submission starts while a previous submission has not been followed
by a cursor release, and no unreleased submission remains at the end. -/
def releasedPerAttemptAux : Bool → List Event → Bool
  | pending, [] => !pending
  | pending, Event.execute _ :: t => !pending && releasedPerAttemptAux true t
  | _pending, Event.closeCursor :: t => releasedPerAttemptAux false t
  | pending, _ :: t => releasedPerAttemptAux pending t

/-- Every submission attempt in the trace is followed by a cursor release
before the next submission attempt or the end of the trace. -/
def releasedPerAttempt (tr : List Event) : Bool :=
  releasedPerAttemptAux false tr

theorem extractSqlBlock_eval_some (text : List Char) (i j : Nat)
    (h1 : pyFind text fenceSql 0 = some i) (h2 : pyFind text fence (i + 6) = some j) :
    extractSqlBlock text = some (pyStrip ((text.take j).drop (i + 6))) := by
  unfold extractSqlBlock pyFindI
  have e0 : (0 : Int).toNat = 0 := rfl
  rw [e0, h1]
  dsimp only
  have e1 : ((i : Int) + 6).toNat = i + 6 := by omega
  rw [e1, h2]
  dsimp only
  have hcond : (i : Int) ≠ -1 ∧ (j : Int) ≠ -1 := by constructor <;> omega
  rw [if_pos hcond]
  have e2 : (j : Int).toNat = j := by omega
  rw [e2]

theorem extractSqlBlock_eval_none1 (text : List Char)
    (h1 : pyFind text fenceSql 0 = none) : extractSqlBlock text = none := by
  unfold extractSqlBlock pyFindI
  have e0 : (0 : Int).toNat = 0 := rfl
  rw [e0, h1]
  have hcond : ¬ ((-1 : Int) ≠ -1 ∧
      (match pyFind text fence ((-1 : Int) + 6).toNat with
       | some i => (i : Int)
       | none => -1) ≠ -1) := by
    intro h
    exact h.1 rfl
  rw [if_neg hcond]

theorem extractSqlBlock_eval_none2 (text : List Char) (i : Nat)
    (h1 : pyFind text fenceSql 0 = some i) (h2 : pyFind text fence (i + 6) = none) :
    extractSqlBlock text = none := by
  unfold extractSqlBlock pyFindI
  have e0 : (0 : Int).toNat = 0 := rfl
  rw [e0, h1]
  dsimp only
  have e1 : ((i : Int) + 6).toNat = i + 6 := by omega
  rw [e1, h2]
  dsimp only
  have hcond : ¬ ((i : Int) ≠ -1 ∧ (-1 : Int) ≠ -1) := by
    intro h
    exact h.2 rfl
  rw [if_neg hcond]

/-- Claim C4: for every input text, the Response Extractor (the extraction
step shared by convert_procedure and procedure_error_rtry) returns exactly the
trimmed text strictly between the first occurrence of the opening marker
(at i, with the inner text starting at i plus the marker length 6) and the
next occurrence of the closing marker after it, when both exist; it returns
absent when no opening marker occurs, and also when an opening marker occurs
but no closing marker occurs at or after the end of it. -/
theorem claim4_extractor (text : List Char) :
    (∀ i j, firstOccurFrom text fenceSql 0 i → firstOccurFrom text fence (i + 6) j →
      extractSqlBlock text = some (pyStrip ((text.take j).drop (i + 6)))) ∧
    ((∀ k, ¬ occursAt text fenceSql k) → extractSqlBlock text = none) ∧
    (∀ i, firstOccurFrom text fenceSql 0 i → (∀ k, i + 6 ≤ k → ¬ occursAt text fence k) →
      extractSqlBlock text = none) := by
  refine ⟨?_, ?_, ?_⟩
  · intro i j h1 h2
    have hf1 : pyFind text fenceSql 0 = some i :=
      pyFind_eq_some_of_first text fenceSql 0 i (by decide) h1
    have hf2 : pyFind text fence (i + 6) = some j :=
      pyFind_eq_some_of_first text fence (i + 6) j (by decide) h2
    exact extractSqlBlock_eval_some text i j hf1 hf2
  · intro h
    have hf1 : pyFind text fenceSql 0 = none :=
      pyFind_eq_none_of_no_occur text fenceSql 0 (fun k _ => h k)
    exact extractSqlBlock_eval_none1 text hf1
  · intro i h1 h2
    have hf1 : pyFind text fenceSql 0 = some i :=
      pyFind_eq_some_of_first text fenceSql 0 i (by decide) h1
    have hf2 : pyFind text fence (i + 6) = none :=
      pyFind_eq_none_of_no_occur text fence (i + 6) h2
    exact extractSqlBlock_eval_none2 text i hf1 hf2

/-- Witness for claim C4: on the text ab(opening marker) SELECT 1 (closing
marker)cd the opening marker first occurs at 2 and the next closing marker at
18, and the extractor returns the trimmed slice between positions 8 and 18. -/
theorem claim4_witness :
    extractSqlBlock ("ab```sql SELECT 1 ```cd".toList) =
      some (pyStrip ((("ab```sql SELECT 1 ```cd".toList).take 18).drop (2 + 6))) :=
  (claim4_extractor ("ab```sql SELECT 1 ```cd".toList)).1 2 18 (by decide) (by decide)

/-- Claim C10: the result of procedure_error_rtry is independent of its
connection argument: two calls differing only in the connection value return
the same result, for every sql_code, error text and model behaviour. -/
theorem claim10_connection_independent (c1 c2 : Connection) (sql_code error : List Char)
    (model : List Char → CallOutcome) :
    procedure_error_rtry c1 sql_code error model =
      procedure_error_rtry c2 sql_code error model := rfl

/-- Claim C7: when the remote model invocation raises inside convert_procedure
or procedure_error_rtry, the function returns absent together with exactly one
diagnostic line naming the model and the failure reason, and no exception
escapes (the functions are total into Option); the absent result is identical
to the one produced for a response without a fenced block. -/
theorem claim7_model_failure (model : List Char → CallOutcome) (conn : Connection)
    (sql_code error reason : List Char)
    (h1 : model (buildConvertPrompt sql_code) = CallOutcome.raised reason)
    (h2 : model (buildRetryPrompt sql_code error) = CallOutcome.raised reason) :
    convert_procedure model sql_code = (none, [errorLogLine reason]) ∧
    procedure_error_rtry conn sql_code error model = (none, [errorLogLine reason]) ∧
    (∀ (model2 : List Char → CallOutcome) (t : List Char),
      model2 (buildConvertPrompt sql_code) = CallOutcome.ok t →
      extractSqlBlock t = none →
      (convert_procedure model2 sql_code).fst = (convert_procedure model sql_code).fst) := by
  refine ⟨?_, ?_, ?_⟩
  · unfold convert_procedure
    rw [h1]
  · unfold procedure_error_rtry
    rw [h2]
  · intro model2 t hm ht
    unfold convert_procedure
    rw [h1, hm]
    dsimp only
    rw [ht]

/-- Witness for claim C7: a model stub that always raises with reason timeout
makes convert_procedure return absent plus the single diagnostic line. -/
theorem claim7_witness :
    convert_procedure (fun _ => CallOutcome.raised ("timeout".toList)) ("S".toList) =
      (none, [errorLogLine ("timeout".toList)]) :=
  (claim7_model_failure (fun _ => CallOutcome.raised ("timeout".toList))
    ⟨AcquireResult.ok, fun _ => ExecResult.ok⟩
    ("S".toList) ("E".toList) ("timeout".toList) rfl rfl).1

/-- Claim C2: against a session whose cursor opens and whose every submission
reports a programming error, and whose repair call returns a non-empty
corrected body, the Registration Attempter performs exactly two submission
attempts and exactly one repair-request call and reports Failed (a normal
False return, no further retries). -/
theorem claim2_retry_once (model : List Char → CallOutcome) (conn : Connection)
    (sql_code m corr : List Char)
    (hcur : conn.cursorResult = AcquireResult.ok)
    (h1 : conn.exec sql_code = ExecResult.progError m)
    (hrep : (procedure_error_rtry conn sql_code m model).fst = some corr)
    (hcorr : corr ≠ [])
    (hall : ∀ s, ∃ m2, conn.exec s = ExecResult.progError m2) :
    (create_stored_procedure_in_snowflake model conn sql_code).fst = Except.ok false ∧
    (create_stored_procedure_in_snowflake model conn sql_code).snd.countP isExecuteEv = 2 ∧
    (create_stored_procedure_in_snowflake model conn sql_code).snd.countP isRepairEv = 1 := by
  obtain ⟨m2, hm2⟩ := hall corr
  refine ⟨?_, ?_, ?_⟩ <;>
    simp [create_stored_procedure_in_snowflake, hcur, h1, hrep, hcorr, hm2,
      List.countP_cons, isExecuteEv, isRepairEv]

/-- Witness for claim C2: a stub whose every execution reports error boom and
a model whose repair response carries a fenced body Y yields exactly two
submissions, one repair call and a Failed report. -/
theorem claim2_witness :
    (create_stored_procedure_in_snowflake (fun _ => CallOutcome.ok ("```sql\nY\n```".toList))
      ⟨AcquireResult.ok, fun _ => ExecResult.progError ("boom".toList)⟩ ("X".toList)).fst =
        Except.ok false ∧
    (create_stored_procedure_in_snowflake (fun _ => CallOutcome.ok ("```sql\nY\n```".toList))
      ⟨AcquireResult.ok, fun _ => ExecResult.progError ("boom".toList)⟩
        ("X".toList)).snd.countP isExecuteEv = 2 ∧
    (create_stored_procedure_in_snowflake (fun _ => CallOutcome.ok ("```sql\nY\n```".toList))
      ⟨AcquireResult.ok, fun _ => ExecResult.progError ("boom".toList)⟩
        ("X".toList)).snd.countP isRepairEv = 1 :=
  claim2_retry_once (fun _ => CallOutcome.ok ("```sql\nY\n```".toList))
    ⟨AcquireResult.ok, fun _ => ExecResult.progError ("boom".toList)⟩
    ("X".toList) ("boom".toList) ("Y".toList) rfl rfl (by decide) (by decide)
    (fun s => ⟨("boom".toList), rfl⟩)

/-- Counterexample to claim C5 as stated: with a session whose first
submission of X reports a programming error and whose repaired body Y then
succeeds, the trace contains a second submission with no cursor release after
the first one, so the per-attempt release discipline is violated. -/
theorem claim5_cex :
    releasedPerAttempt ((create_stored_procedure_in_snowflake
      (fun _ => CallOutcome.ok ("```sql\nY\n```".toList))
      ⟨AcquireResult.ok,
        fun s => if s = ("X".toList) then ExecResult.progError ("E".toList) else ExecResult.ok⟩
      ("X".toList)).snd) = false := by decide

/-- Claim C5 amended: the Registration Attempter acquires a single statement
handle reused by both submission attempts and closes it exactly once, as the
last action, on every path on which acquisition succeeded; it does not close
it between the first failed submission and the retried submission, and on the
path where acquisition itself raises, the finally block reads an unassigned
local and the call ends in UnboundLocalError with no release at all. -/
theorem claim5_cursor_amended (model : List Char → CallOutcome) (conn : Connection)
    (sql_code : List Char) :
    (conn.cursorResult = AcquireResult.ok →
      ((create_stored_procedure_in_snowflake model conn sql_code).snd.countP
          isCloseCursorEv = 1 ∧
       (create_stored_procedure_in_snowflake model conn sql_code).snd.getLast? =
          some Event.closeCursor)) ∧
    (∀ b m, conn.cursorResult = AcquireResult.raises b m →
      ((create_stored_procedure_in_snowflake model conn sql_code).fst =
          Except.error (PyExn.unboundLocal cursorVar) ∧
       (create_stored_procedure_in_snowflake model conn sql_code).snd.countP
          isCloseCursorEv = 0)) := by
  constructor
  · intro hcur
    cases hexec : conn.exec sql_code with
    | ok =>
        constructor <;>
          simp [create_stored_procedure_in_snowflake, hcur, hexec, List.countP_cons,
            isCloseCursorEv, List.getLast?_cons_cons, List.getLast?_singleton]
    | otherError m =>
        constructor <;>
          simp [create_stored_procedure_in_snowflake, hcur, hexec, List.countP_cons,
            isCloseCursorEv, List.getLast?_cons_cons, List.getLast?_singleton]
    | progError m =>
      cases hrep : (procedure_error_rtry conn sql_code m model).fst with
      | none =>
          constructor <;>
            simp [create_stored_procedure_in_snowflake, hcur, hexec, hrep, List.countP_cons,
              isCloseCursorEv, List.getLast?_cons_cons, List.getLast?_singleton]
      | some c =>
        by_cases hc : c = []
        · constructor <;>
            simp [create_stored_procedure_in_snowflake, hcur, hexec, hrep, hc, List.countP_cons,
              isCloseCursorEv, List.getLast?_cons_cons, List.getLast?_singleton]
        · cases hexec2 : conn.exec c with
          | ok =>
              constructor <;>
                simp [create_stored_procedure_in_snowflake, hcur, hexec, hrep, hc, hexec2,
                  List.countP_cons, isCloseCursorEv, List.getLast?_cons_cons,
                  List.getLast?_singleton]
          | progError m2 =>
              constructor <;>
                simp [create_stored_procedure_in_snowflake, hcur, hexec, hrep, hc, hexec2,
                  List.countP_cons, isCloseCursorEv, List.getLast?_cons_cons,
                  List.getLast?_singleton]
          | otherError m2 =>
              constructor <;>
                simp [create_stored_procedure_in_snowflake, hcur, hexec, hrep, hc, hexec2,
                  List.countP_cons, isCloseCursorEv, List.getLast?_cons_cons,
                  List.getLast?_singleton]
  · intro b m hcur
    unfold create_stored_procedure_in_snowflake
    rw [hcur]
    cases b with
    | true => exact ⟨rfl, rfl⟩
    | false => exact ⟨rfl, rfl⟩

/-- Witness for claim C5 amended: with an always-succeeding session the trace
closes the cursor exactly once and as the last event. -/
theorem claim5_witness :
    (create_stored_procedure_in_snowflake (fun _ => CallOutcome.ok ("ok".toList))
      ⟨AcquireResult.ok, fun _ => ExecResult.ok⟩ ("S".toList)).snd.countP
        isCloseCursorEv = 1 ∧
    (create_stored_procedure_in_snowflake (fun _ => CallOutcome.ok ("ok".toList))
      ⟨AcquireResult.ok, fun _ => ExecResult.ok⟩ ("S".toList)).snd.getLast? =
        some Event.closeCursor :=
  (claim5_cursor_amended (fun _ => CallOutcome.ok ("ok".toList))
    ⟨AcquireResult.ok, fun _ => ExecResult.ok⟩ ("S".toList)).1 rfl

/-- The archive entry main produces for one uploaded file: present exactly
when the translation result is non-absent and non-empty, pairing the basename
with the translated body. -/
def archiveEntry (model : List Char → CallOutcome) (f : UploadedFile) :
    Option (List Char × List Char) :=
  match process_sql_code model f.content with
  | some c => if c = [] then none else some (basename f.name, c)
  | none => none

theorem main_state_eq (w : World) (files : List UploadedFile) (conn : Connection)
    (hc : w.connect = ConnectResult.ok conn) :
    (main w files).state = (mainLoop w.model conn files).1 := by
  cases files with
  | nil => simp [main, mainLoop, emptyBatch]
  | cons f rest =>
    unfold main
    rw [hc]
    rcases hloop : mainLoop w.model conn (f :: rest) with ⟨st, e⟩
    simp [hloop]

theorem stepFile_outcome_count (model : List Char → CallOutcome) (conn : Connection)
    (f : UploadedFile) (n : List Char) (h : (stepFile model conn f).2 = none) :
    ((stepFile model conn f).1.created_successfully).count n +
      ((stepFile model conn f).1.not_created_files).count n =
        List.count n [basename f.name] := by
  cases hpc : process_sql_code model f.content with
  | none => simp [stepFile, hpc]
  | some c =>
    by_cases hce : c = []
    · simp [stepFile, hpc, hce]
    · rcases hcr : create_stored_procedure_in_snowflake model conn c with ⟨e | b, tr⟩
      · exfalso
        rw [stepFile, hpc] at h
        simp only [hce, if_false] at h
        rw [hcr] at h
        simp at h
      · cases b with
        | true => simp [stepFile, hpc, hce, hcr]
        | false => simp [stepFile, hpc, hce, hcr]

theorem stepFile_converted_eq (model : List Char → CallOutcome) (conn : Connection)
    (f : UploadedFile) (h : (stepFile model conn f).2 = none) :
    (stepFile model conn f).1.converted_files = (archiveEntry model f).toList := by
  cases hpc : process_sql_code model f.content with
  | none => simp [stepFile, archiveEntry, hpc]
  | some c =>
    by_cases hce : c = []
    · simp [stepFile, archiveEntry, hpc, hce]
    · rcases hcr : create_stored_procedure_in_snowflake model conn c with ⟨e | b, tr⟩
      · exfalso
        rw [stepFile, hpc] at h
        simp only [hce, if_false] at h
        rw [hcr] at h
        simp at h
      · cases b with
        | true => simp [stepFile, archiveEntry, hpc, hce, hcr]
        | false => simp [stepFile, archiveEntry, hpc, hce, hcr]

theorem mainLoop_outcome_count (model : List Char → CallOutcome) (conn : Connection) :
    ∀ (files : List UploadedFile) (n : List Char),
      (mainLoop model conn files).2 = none →
      ((mainLoop model conn files).1.created_successfully).count n +
        ((mainLoop model conn files).1.not_created_files).count n =
          (files.map (fun f => basename f.name)).count n := by
  intro files
  induction files with
  | nil => intro n _; simp [mainLoop, emptyBatch]
  | cons f rest ih =>
    intro n h
    rcases hstep : stepFile model conn f with ⟨st, e⟩
    cases e with
    | some ex =>
      exfalso
      rw [mainLoop, hstep] at h
      simp at h
    | none =>
      rcases hrest : mainLoop model conn rest with ⟨st2, e2⟩
      have h2 : e2 = none := by
        rw [mainLoop, hstep, hrest] at h
        simpa using h
      have hstepc := stepFile_outcome_count model conn f n (by rw [hstep])
      rw [hstep] at hstepc
      dsimp only at hstepc
      have hihc := ih n (by rw [hrest]; exact h2)
      rw [hrest] at hihc
      dsimp only at hihc
      rw [mainLoop, hstep, hrest]
      dsimp only
      simp only [appendBatch, List.map_cons, List.count_append, List.count_cons, beq_iff_eq]
      have hsing : List.count n [basename f.name] = if basename f.name = n then 1 else 0 := by
        simp [List.count_cons, List.count_nil, beq_iff_eq]
      omega

theorem mainLoop_converted_eq (model : List Char → CallOutcome) (conn : Connection) :
    ∀ (files : List UploadedFile), (mainLoop model conn files).2 = none →
      (mainLoop model conn files).1.converted_files =
        files.filterMap (archiveEntry model) := by
  intro files
  induction files with
  | nil => intro _; simp [mainLoop, emptyBatch]
  | cons f rest ih =>
    intro h
    rcases hstep : stepFile model conn f with ⟨st, e⟩
    cases e with
    | some ex =>
      exfalso
      rw [mainLoop, hstep] at h
      simp at h
    | none =>
      rcases hrest : mainLoop model conn rest with ⟨st2, e2⟩
      have h2 : e2 = none := by
        rw [mainLoop, hstep, hrest] at h
        simpa using h
      have hstepc := stepFile_converted_eq model conn f (by rw [hstep])
      rw [hstep] at hstepc
      dsimp only at hstepc
      have hihc := ih (by rw [hrest]; exact h2)
      rw [hrest] at hihc
      dsimp only at hihc
      rw [mainLoop, hstep, hrest]
      dsimp only
      simp only [appendBatch, List.filterMap_cons]
      cases harch : archiveEntry model f with
      | none =>
        rw [harch] at hstepc
        simp only [Option.toList] at hstepc
        simp [hstepc, hihc]
      | some entry =>
        rw [harch] at hstepc
        simp only [Option.toList] at hstepc
        simp [hstepc, hihc]

theorem count_le_one_of_nodup (l : List (List Char)) (hd : l.Nodup) (n : List Char) :
    l.count n ≤ 1 := by
  induction l with
  | nil => simp [List.count_nil]
  | cons a t ih =>
    rw [List.nodup_cons] at hd
    rw [List.count_cons]
    by_cases hab : a = n
    · subst hab
      have hz : t.count a = 0 := List.count_eq_zero.mpr hd.1
      simp [hz]
    · have : (a == n) = false := by
        simp [hab]
      simp [this]
      exact ih hd.2

/-- Counterexample to claim C1 as stated: two uploaded files sharing the base
name a.sql, where the first translates and registers and the translation of
the second yields no fenced block, put the same name into both outcome lists,
so the Succeeded and Failed lists are not disjoint and the shared name is not
recorded in exactly one list. -/
theorem claim1_cex :
    ("a.sql".toList ∈ (main
      ⟨fun p => if p = buildConvertPrompt ("P2".toList) then CallOutcome.ok ("nofence".toList)
          else CallOutcome.ok ("```sql\nC1\n```".toList),
        ConnectResult.ok ⟨AcquireResult.ok, fun _ => ExecResult.ok⟩⟩
      [⟨("a.sql".toList), ("P1".toList)⟩, ⟨("a.sql".toList), ("P2".toList)⟩]).state.created_successfully) ∧
    ("a.sql".toList ∈ (main
      ⟨fun p => if p = buildConvertPrompt ("P2".toList) then CallOutcome.ok ("nofence".toList)
          else CallOutcome.ok ("```sql\nC1\n```".toList),
        ConnectResult.ok ⟨AcquireResult.ok, fun _ => ExecResult.ok⟩⟩
      [⟨("a.sql".toList), ("P1".toList)⟩, ⟨("a.sql".toList), ("P2".toList)⟩]).state.not_created_files) := by
  decide

/-- Claim C1 amended: for every batch run whose registration attempts all
return normally (no exception aborts the loop), each uploaded Script
contributes exactly one entry in exactly one of the two outcome lists, so for
every name the number of occurrences in Succeeded plus the number in Failed
equals the number of input Scripts carrying that base name; when the base
names of the batch are pairwise distinct, the two lists are moreover
disjoint.  (With duplicate base names the literal disjointness in the claim
fails, see the counterexample.) -/
theorem claim1_partition_amended (w : World) (files : List UploadedFile)
    (conn : Connection) (hc : w.connect = ConnectResult.ok conn)
    (hok : (mainLoop w.model conn files).2 = none) :
    (∀ n, ((main w files).state.created_successfully).count n +
        ((main w files).state.not_created_files).count n =
          (files.map (fun f => basename f.name)).count n) ∧
    ((files.map (fun f => basename f.name)).Nodup →
      ∀ n, n ∈ (main w files).state.created_successfully →
        n ∉ (main w files).state.not_created_files) := by
  have hstate := main_state_eq w files conn hc
  constructor
  · intro n
    rw [hstate]
    exact mainLoop_outcome_count w.model conn files n hok
  · intro hdup n hmem hmem2
    have hcnt := mainLoop_outcome_count w.model conn files n hok
    rw [hstate] at hmem hmem2
    have h1 : 0 < ((mainLoop w.model conn files).1.created_successfully).count n :=
      List.count_pos_iff.mpr hmem
    have h2 : 0 < ((mainLoop w.model conn files).1.not_created_files).count n :=
      List.count_pos_iff.mpr hmem2
    have h3 : ((files.map (fun f => basename f.name)).count n) ≤ 1 :=
      count_le_one_of_nodup (files.map (fun f => basename f.name)) hdup n
    omega

/-- Witness for claim C1 amended: a one-file batch whose script translates
and registers; the name a.sql is counted once in Succeeded and never in
Failed, matching its single occurrence among the inputs. -/
theorem claim1_witness :
    ((main ⟨fun _ => CallOutcome.ok ("```sql\nC1\n```".toList),
        ConnectResult.ok ⟨AcquireResult.ok, fun _ => ExecResult.ok⟩⟩
      [⟨("a.sql".toList), ("P1".toList)⟩]).state.created_successfully).count ("a.sql".toList) +
    ((main ⟨fun _ => CallOutcome.ok ("```sql\nC1\n```".toList),
        ConnectResult.ok ⟨AcquireResult.ok, fun _ => ExecResult.ok⟩⟩
      [⟨("a.sql".toList), ("P1".toList)⟩]).state.not_created_files).count ("a.sql".toList) =
    (([⟨("a.sql".toList), ("P1".toList)⟩] : List UploadedFile).map
      (fun f => basename f.name)).count ("a.sql".toList) :=
  (claim1_partition_amended
    ⟨fun _ => CallOutcome.ok ("```sql\nC1\n```".toList),
      ConnectResult.ok ⟨AcquireResult.ok, fun _ => ExecResult.ok⟩⟩
    [⟨("a.sql".toList), ("P1".toList)⟩]
    ⟨AcquireResult.ok, fun _ => ExecResult.ok⟩ rfl (by decide)).1 ("a.sql".toList)

/-- Counterexample to claim C3 as stated: a script whose model response
carries a fenced block containing only whitespace gives a non-absent
translation (the empty string after trimming), yet the archive receives no
entry for it, so the archive does not contain an entry for every Script whose
Translation Requester call returned non-absent. -/
theorem claim3_cex :
    process_sql_code (fun _ => CallOutcome.ok ("```sql\n   \n```".toList)) ("B".toList) ≠
      none ∧
    (main ⟨fun _ => CallOutcome.ok ("```sql\n   \n```".toList),
        ConnectResult.ok ⟨AcquireResult.ok, fun _ => ExecResult.ok⟩⟩
      [⟨("a.sql".toList), ("B".toList)⟩]).state.converted_files = [] := by
  decide

/-- Claim C3 amended: for every batch run whose registration attempts all
return normally, the archive passed to create_zip_file holds, in input order,
exactly one entry for each Script whose translation returned a non-absent and
non-empty body, pairing that Script's base name with the translated body; a
Script whose translation is absent or empty gets no entry.  The right-hand
characterization never consults the connection, so the archive is independent
of registration outcomes. -/
theorem claim3_archive_amended (w : World) (files : List UploadedFile)
    (conn : Connection) (hc : w.connect = ConnectResult.ok conn)
    (hok : (mainLoop w.model conn files).2 = none) :
    create_zip_file (main w files).state.converted_files =
      files.filterMap (archiveEntry w.model) := by
  have hstate := main_state_eq w files conn hc
  unfold create_zip_file
  rw [hstate]
  exact mainLoop_converted_eq w.model conn files hok

/-- Witness for claim C3 amended: a two-file batch where the first translates
to C1 and the second yields no fenced block produces an archive holding
exactly the first entry. -/
theorem claim3_witness :
    create_zip_file (main
      ⟨fun p => if p = buildConvertPrompt ("P2".toList) then CallOutcome.ok ("nofence".toList)
          else CallOutcome.ok ("```sql\nC1\n```".toList),
        ConnectResult.ok ⟨AcquireResult.ok, fun _ => ExecResult.ok⟩⟩
      [⟨("a.sql".toList), ("P1".toList)⟩, ⟨("b.sql".toList), ("P2".toList)⟩]).state.converted_files =
    ([⟨("a.sql".toList), ("P1".toList)⟩, ⟨("b.sql".toList), ("P2".toList)⟩] :
        List UploadedFile).filterMap
      (archiveEntry (fun p =>
        if p = buildConvertPrompt ("P2".toList) then CallOutcome.ok ("nofence".toList)
        else CallOutcome.ok ("```sql\nC1\n```".toList))) :=
  claim3_archive_amended
    ⟨fun p => if p = buildConvertPrompt ("P2".toList) then CallOutcome.ok ("nofence".toList)
        else CallOutcome.ok ("```sql\nC1\n```".toList),
      ConnectResult.ok ⟨AcquireResult.ok, fun _ => ExecResult.ok⟩⟩
    [⟨("a.sql".toList), ("P1".toList)⟩, ⟨("b.sql".toList), ("P2".toList)⟩]
    ⟨AcquireResult.ok, fun _ => ExecResult.ok⟩ rfl (by decide)

/-- Claim C8: for a single-script batch whose translation yields a non-empty
body, whose first registration attempt reports a programming error, whose
repair call returns a non-empty corrected body, and whose second attempt
succeeds, the script's base name lands in the Succeeded list and the archive
entry holds the original pre-repair translated body; the repaired body is
never archived. -/
theorem claim8_repair_archive (w : World) (conn : Connection)
    (nm body orig m corr : List Char)
    (hc : w.connect = ConnectResult.ok conn)
    (hconv : process_sql_code w.model body = some orig)
    (horig : orig ≠ [])
    (hcur : conn.cursorResult = AcquireResult.ok)
    (hexec1 : conn.exec orig = ExecResult.progError m)
    (hrep : (procedure_error_rtry conn orig m w.model).fst = some corr)
    (hcorr : corr ≠ [])
    (hexec2 : conn.exec corr = ExecResult.ok) :
    (main w [⟨nm, body⟩]).state.created_successfully = [basename nm] ∧
    (main w [⟨nm, body⟩]).state.not_created_files = [] ∧
    (main w [⟨nm, body⟩]).state.converted_files = [(basename nm, orig)] ∧
    (corr ≠ orig → (basename nm, corr) ∉ (main w [⟨nm, body⟩]).state.converted_files) := by
  have hcreate : create_stored_procedure_in_snowflake w.model conn orig =
      (Except.ok true,
       [Event.acquireCursor, Event.execute orig, Event.repairCall orig m,
        Event.execute corr, Event.closeCursor]) := by
    simp [create_stored_procedure_in_snowflake, hcur, hexec1, hrep, hcorr, hexec2]
  have hstep : stepFile w.model conn ⟨nm, body⟩ =
      (⟨[(basename nm, orig)], [basename nm], [],
        [Event.acquireCursor, Event.execute orig, Event.repairCall orig m,
         Event.execute corr, Event.closeCursor]⟩, none) := by
    simp [stepFile, hconv, horig, hcreate]
  have hmain : (main w [⟨nm, body⟩]).state =
      ⟨[(basename nm, orig)], [basename nm], [],
       [Event.acquireCursor, Event.execute orig, Event.repairCall orig m,
        Event.execute corr, Event.closeCursor]⟩ := by
    have := main_state_eq w [⟨nm, body⟩] conn hc
    rw [this, mainLoop, hstep, mainLoop]
    dsimp only
    simp [appendBatch, emptyBatch]
  rw [hmain]
  refine ⟨rfl, rfl, rfl, ?_⟩
  intro hne hmem
  simp only [List.mem_singleton, Prod.mk.injEq] at hmem
  exact hne hmem.2

/-- Witness for claim C8: script B translates to ORIG, its first submission
reports boom, the repair prompt yields FIXED, and the second submission
succeeds; p.sql is reported Succeeded while the archive keeps ORIG. -/
theorem claim8_witness :
    (main ⟨fun p => if p = buildConvertPrompt ("B".toList)
          then CallOutcome.ok ("```sql\nORIG\n```".toList)
          else CallOutcome.ok ("```sql\nFIXED\n```".toList),
        ConnectResult.ok ⟨AcquireResult.ok,
          fun s => if s = ("ORIG".toList) then ExecResult.progError ("boom".toList)
            else ExecResult.ok⟩⟩
      [⟨("p.sql".toList), ("B".toList)⟩]).state.created_successfully =
        [basename ("p.sql".toList)] :=
  (claim8_repair_archive
    ⟨fun p => if p = buildConvertPrompt ("B".toList)
        then CallOutcome.ok ("```sql\nORIG\n```".toList)
        else CallOutcome.ok ("```sql\nFIXED\n```".toList),
      ConnectResult.ok ⟨AcquireResult.ok,
        fun s => if s = ("ORIG".toList) then ExecResult.progError ("boom".toList)
          else ExecResult.ok⟩⟩
    ⟨AcquireResult.ok,
      fun s => if s = ("ORIG".toList) then ExecResult.progError ("boom".toList)
        else ExecResult.ok⟩
    ("p.sql".toList) ("B".toList) ("ORIG".toList) ("boom".toList) ("FIXED".toList)
    rfl (by decide) (by decide) rfl (by decide) (by decide) (by decide) (by decide)).1

/-- A model response whose fenced block holds only whitespace. -/
def wsResp : List Char := "```sql\n   \n```".toList

/-- A model response holding no fenced block at all. -/
def noFenceResp : List Char := "no fenced block".toList

/-- Claim C9: a model response whose fenced block holds only whitespace makes
the translation non-absent but empty, and the orchestrator then treats the
script exactly as if translation were absent: the same MainResult as for a
response with no fenced block, the name in the Failed list, no archive entry,
and no database event at all (no registration attempted). -/
theorem claim9_empty_translation (nm body : List Char) (conn : Connection) :
    process_sql_code (fun _ => CallOutcome.ok wsResp) body = some [] ∧
    main ⟨fun _ => CallOutcome.ok wsResp, ConnectResult.ok conn⟩ [⟨nm, body⟩] =
      main ⟨fun _ => CallOutcome.ok noFenceResp, ConnectResult.ok conn⟩ [⟨nm, body⟩] ∧
    (main ⟨fun _ => CallOutcome.ok wsResp, ConnectResult.ok conn⟩
        [⟨nm, body⟩]).state = ⟨[], [], [basename nm], []⟩ ∧
    (main ⟨fun _ => CallOutcome.ok wsResp, ConnectResult.ok conn⟩
        [⟨nm, body⟩]).events = [Event.connected, Event.closeConnection] := by
  have hws : extractSqlBlock wsResp = some [] := by decide
  have hnf : extractSqlBlock noFenceResp = none := by decide
  refine ⟨?_, ?_, ?_, ?_⟩ <;>
    simp [main, mainLoop, stepFile, process_sql_code, convert_procedure, hws, hnf,
      appendBatch, emptyBatch]

/-- Witness for claim C9: concrete instantiation on a file named n.sql with
body B against an always-succeeding connection stub. -/
theorem claim9_witness :
    process_sql_code (fun _ => CallOutcome.ok wsResp) ("B".toList) = some [] :=
  (claim9_empty_translation ("n.sql".toList) ("B".toList)
    ⟨AcquireResult.ok, fun _ => ExecResult.ok⟩).1

/-- Witness for claim C10: two connection stubs with different execution
behaviour give the same repair-call result. -/
theorem claim10_witness :
    procedure_error_rtry ⟨AcquireResult.ok, fun _ => ExecResult.ok⟩
        ("S".toList) ("E".toList) (fun _ => CallOutcome.ok ("t".toList)) =
      procedure_error_rtry
        ⟨AcquireResult.raises true ("m".toList), fun _ => ExecResult.progError ("m".toList)⟩
        ("S".toList) ("E".toList) (fun _ => CallOutcome.ok ("t".toList)) :=
  claim10_connection_independent
    ⟨AcquireResult.ok, fun _ => ExecResult.ok⟩
    ⟨AcquireResult.raises true ("m".toList), fun _ => ExecResult.progError ("m".toList)⟩
    ("S".toList) ("E".toList) (fun _ => CallOutcome.ok ("t".toList))

/-- Claim C6 (code bug): on a batch run where establishing the connection
itself raises, the except branch displays the failure but the finally block
then reads the never-assigned local snowflake_connection, so main ends in
UnboundLocalError and no connection release happens; the claimed clean
acquire-and-release-once discipline does not hold on this path. -/
theorem claim6_connect_bug :
    (main ⟨fun _ => CallOutcome.raised ("x".toList),
        ConnectResult.raises ("denied".toList)⟩
      [⟨("a.sql".toList), ("B".toList)⟩]).exn = some (PyExn.unboundLocal connVar) ∧
    (main ⟨fun _ => CallOutcome.raised ("x".toList),
        ConnectResult.raises ("denied".toList)⟩
      [⟨("a.sql".toList), ("B".toList)⟩]).events.countP isCloseConnEv = 0 ∧
    (main ⟨fun _ => CallOutcome.raised ("x".toList),
        ConnectResult.raises ("denied".toList)⟩
      [⟨("a.sql".toList), ("B".toList)⟩]).events = [Event.connectFailed] := by
  decide

end EDW
